import Mathlib

/-
Verification of arch/sim host time bridge (sim_hosttime.c).

The C file keeps two process-wide globals, g_start (the monotonic epoch,
a uint64_t nanosecond count) and g_timer (a POSIX timer handle, absent on
the Darwin build), and exposes six operations: host_inittimer,
host_gettime, host_sleep, host_sleepuntil, host_settimer and
host_timerirq.  We embed each operation as a pure Lean function over Nat,
with every uint64_t computation taken modulo 2 ^ 64 exactly where the C
code can wrap.  Host calls (clock_gettime, timer_create, usleep,
setitimer, timer_settime) are modelled as oracle inputs and recorded
outputs: a clock sample is an input pair of seconds and nanoseconds, a
sleep is the microsecond argument handed to usleep, and arming the timer
is the itimerspec or itimerval structure handed to the host.
-/

namespace SimHosttime

/-- Modulus of the C type uint64_t, that is 2 ^ 64. -/
def U64 : Nat := 18446744073709551616

/-- Reduction of a natural number into the uint64_t range, the implicit
truncation C applies to every uint64_t computation. -/
def wrap (x : Nat) : Nat := x % U64

/-- uint64_t subtraction a - b with wraparound, for a and b already in
uint64_t range. -/
def sub64 (a b : Nat) : Nat := (a + (U64 - b % U64)) % U64

/-- The two process-wide globals of sim_hosttime.c: g_start is the epoch
captured by host_inittimer, g_timer the POSIX timer handle (modelled as a
numeric identifier). -/
structure HostState where
  g_start : Nat
  g_timer : Nat
deriving DecidableEq

/-- The struct itimerspec handed to timer_settime in the Linux branch of
host_settimer: an absolute expiry value in seconds and nanoseconds plus a
repeat interval. -/
structure Itimerspec where
  it_value_sec : Nat
  it_value_nsec : Nat
  it_interval_sec : Nat
  it_interval_nsec : Nat
deriving DecidableEq

/-- The struct itimerval handed to setitimer in the Darwin branch of
host_settimer: a relative expiry value in seconds and microseconds plus a
repeat interval. -/
structure Itimerval where
  it_value_sec : Nat
  it_value_usec : Nat
  it_interval_sec : Nat
  it_interval_usec : Nat
deriving DecidableEq

/-- The signal number used for timer expiry, SIGALRM (14 on both Linux
and Darwin). -/
def SIGALRM : Int := 14

/-- host_gettime: samples the realtime clock (rtc true) or the monotonic
clock (rtc false) as a timespec (sec, nsec), forms
current = 1000000000 * sec + nsec in uint64_t, and returns current in rtc
mode or current - g_start (uint64_t subtraction) in monotonic mode.  The
clock sample is an oracle input. -/
def host_gettime (rtc : Bool) (sec nsec g_start : Nat) : Nat :=
  let current := wrap (1000000000 * sec + nsec)
  if rtc then current else sub64 current g_start

/-- host_sleep: issues usleep ((nsec + 999) / 1000), the addition taken in
uint64_t.  The returned value is the microsecond argument handed to
usleep. -/
def host_sleep (nsec : Nat) : Nat :=
  wrap (nsec + 999) / 1000

/-- host_sleepuntil: reads now = host_gettime false, and when
nsec > now + 1000 (the addition taken in uint64_t) issues
usleep ((nsec - now) / 1000) with uint64_t subtraction; otherwise it
issues no sleep.  The result is the microsecond argument of the issued
usleep call, or none when no sleep is issued.  now stands for the value
the internal host_gettime call returned. -/
def host_sleepuntil (nsec now : Nat) : Option Nat :=
  if wrap (now + 1000) < nsec then some (sub64 nsec now / 1000) else none

/-- host_inittimer, Linux branch: calls clock_gettime (return status
clock_ret, sample (sec, nsec)), stores
g_start = 1000000000 * sec + nsec in uint64_t, then calls timer_create
(return status tc_ret, created handle tc_handle) and returns its status.
The C code discards clock_ret: it appears nowhere in the result. -/
def host_inittimer_linux (clock_ret : Int) (sec nsec : Nat) (tc_ret : Int)
    (tc_handle : Nat) (s : HostState) : Int × HostState :=
  ⟨tc_ret, ⟨wrap (1000000000 * sec + nsec), tc_handle⟩⟩

/-- host_inittimer, Darwin branch: calls clock_gettime (return status
clock_ret, sample (sec, nsec)), stores g_start, creates no timer object
and returns 0.  The C code discards clock_ret. -/
def host_inittimer_darwin (clock_ret : Int) (sec nsec : Nat)
    (s : HostState) : Int × HostState :=
  ⟨0, ⟨wrap (1000000000 * sec + nsec), s.g_timer⟩⟩

/-- host_settimer, Linux branch: computes a = nsec + g_start in uint64_t
and fills the itimerspec with value (a / 1000000000, a % 1000000000) and
zero interval, handed to timer_settime with TIMER_ABSTIME. -/
def host_settimer_tspec (nsec g_start : Nat) : Itimerspec :=
  let a := wrap (nsec + g_start)
  ⟨a / 1000000000, a % 1000000000, 0, 0⟩

/-- host_settimer, Darwin branch: computes usec = nsec / 1000 in uint64_t
and fills the itimerval with value (usec / 1000000, usec % 1000000) and
zero interval, handed to setitimer (ITIMER_REAL), a relative one-shot
request. -/
def host_settimer_itv (nsec : Nat) : Itimerval :=
  let usec := wrap nsec / 1000
  ⟨usec / 1000000, usec % 1000000, 0, 0⟩

/-- Host semantics of the Darwin setitimer request: a relative one-shot
timer armed at virtual time now fires at virtual time now plus the
requested value converted to nanoseconds. -/
def itv_expiry_virtual (now : Nat) (it : Itimerval) : Nat :=
  now + (it.it_value_sec * 1000000 + it.it_value_usec) * 1000

/-- Host semantics of the Linux timer_settime request with TIMER_ABSTIME:
the timer fires at the absolute monotonic host time it carries, which on
the virtual timeline is that value minus the epoch (uint64_t
subtraction, as in host_gettime). -/
def tspec_expiry_virtual (g_start : Nat) (t : Itimerspec) : Nat :=
  sub64 (wrap (t.it_value_sec * 1000000000 + t.it_value_nsec)) g_start

/-- host_gettime in state-passing form: reads g_start, writes nothing. -/
def host_gettime_s (rtc : Bool) (sec nsec : Nat) (s : HostState) :
    Nat × HostState :=
  ⟨host_gettime rtc sec nsec s.g_start, s⟩

/-- host_sleep in state-passing form: touches no global. -/
def host_sleep_s (nsec : Nat) (s : HostState) : Nat × HostState :=
  ⟨host_sleep nsec, s⟩

/-- host_sleepuntil in state-passing form: reads g_start through its
internal host_gettime false call, writes nothing.  (sec, nsec2) is the
monotonic clock sample of that internal call. -/
def host_sleepuntil_s (nsec sec nsec2 : Nat) (s : HostState) :
    Option Nat × HostState :=
  ⟨host_sleepuntil nsec (host_gettime false sec nsec2 s.g_start), s⟩

/-- host_settimer (Linux branch) in state-passing form: reads g_start and
g_timer, writes nothing; returns the timer_settime status st_ret (an
oracle input) and the programmed itimerspec. -/
def host_settimer_s (nsec : Nat) (st_ret : Int) (s : HostState) :
    (Int × Itimerspec) × HostState :=
  ⟨⟨st_ret, host_settimer_tspec nsec s.g_start⟩, s⟩

/-- host_settimer (Darwin branch) in state-passing form: touches no
global; returns the setitimer status st_ret (an oracle input) and the
programmed itimerval. -/
def host_settimer_darwin_s (nsec : Nat) (st_ret : Int) (s : HostState) :
    (Int × Itimerval) × HostState :=
  ⟨⟨st_ret, host_settimer_itv nsec⟩, s⟩

/-- host_timerirq in state-passing form: returns SIGALRM, touches no
global. -/
def host_timerirq_s (s : HostState) : Int × HostState :=
  ⟨SIGALRM, s⟩

/-- Truncation is the identity below 2 ^ 64. -/
theorem wrap_eq_of_lt (x : Nat) (h : x < U64) : wrap x = x :=
  Nat.mod_eq_of_lt h

/-- uint64_t subtraction agrees with Nat subtraction when it does not
wrap. -/
theorem sub64_eq_sub (a b : Nat) (hba : b ≤ a) (ha : a < U64) :
    sub64 a b = a - b := by
  have hb : b % U64 = b := Nat.mod_eq_of_lt (lt_of_le_of_lt hba ha)
  simp only [sub64, hb, U64] at *
  omega

/-- Characterization of host_sleepuntil when the guard addition now + 1000
does not overflow uint64_t: the sleep is issued exactly when the deadline
exceeds now + 1000, and its microsecond argument is the true difference
divided by 1000. -/
theorem host_sleepuntil_spec (d now : Nat) (hnow : now + 1000 < U64)
    (hd : d < U64) :
    host_sleepuntil d now =
      if now + 1000 < d then some ((d - now) / 1000) else none := by
  have hw : wrap (now + 1000) = now + 1000 := wrap_eq_of_lt _ hnow
  simp only [host_sleepuntil, hw]
  by_cases hc : now + 1000 < d
  · rw [if_pos hc, if_pos hc, sub64_eq_sub d now (by omega) hd]
  · rw [if_neg hc, if_neg hc]

/-- C2 counterexample: at d = 2 ^ 64 - 1 the uint64_t addition d + 999
wraps, host_sleep requests 0 microseconds, and the requested host delay
converted back to nanoseconds is below d, so the claim that the result is
always at least d fails. -/
theorem sleep_rounding_overflow_cex :
    host_sleep (U64 - 1) = 0 ∧ host_sleep (U64 - 1) * 1000 < U64 - 1 := by
  decide

/-- C2 amended: whenever the uint64_t addition d + 999 does not wrap,
host_sleep requests exactly (d + 999) / 1000 microseconds, the ceiling of
d / 1000, so the requested delay in nanoseconds is at least d and
overshoots by less than one microsecond. -/
theorem sleep_rounds_up (d : Nat) (h : d + 999 < U64) :
    host_sleep d = (d + 999) / 1000 ∧ d ≤ host_sleep d * 1000 ∧
      host_sleep d * 1000 < d + 1000 := by
  have hw : wrap (d + 999) = d + 999 := wrap_eq_of_lt _ h
  refine ⟨?_, ?_, ?_⟩ <;> simp only [host_sleep, hw] <;> omega

/-- Witness for sleep_rounds_up at d = 1500. -/
theorem sleep_rounds_up_witness :
    1500 + 999 < U64 ∧
      (host_sleep 1500 = (1500 + 999) / 1000 ∧ 1500 ≤ host_sleep 1500 * 1000 ∧
        host_sleep 1500 * 1000 < 1500 + 1000) :=
  ⟨by decide, sleep_rounds_up 1500 (by decide)⟩

/-- C3 counterexample: with the monotonic clock read failing (status -1)
and timer creation succeeding (status 0), host_inittimer returns 0 on
both branches: the clock failure is swallowed, not surfaced. -/
theorem inittimer_ignores_clock_failure_cex :
    (host_inittimer_linux (-1) 3 5 0 7 ⟨0, 0⟩).1 = 0 ∧
      (host_inittimer_darwin (-1) 3 5 ⟨0, 0⟩).1 = 0 ∧ (-1 : Int) ≠ 0 := by
  decide

/-- C3 amended: host_inittimer returns exactly the status of the
timer-creation call on the Linux branch and always 0 on the Darwin
branch; the status of the monotonic clock read that establishes the epoch
is discarded and never influences the result. -/
theorem inittimer_returns_creation_status (clock_ret : Int) (sec nsec : Nat)
    (tc_ret : Int) (tc_handle : Nat) (s : HostState) :
    (host_inittimer_linux clock_ret sec nsec tc_ret tc_handle s).1 = tc_ret ∧
      (host_inittimer_darwin clock_ret sec nsec s).1 = 0 :=
  ⟨rfl, rfl⟩

/-- C4: with a clock sample (sec, nsec) whose nanosecond total fits in
uint64_t, host_gettime in wall-clock mode returns the raw total
1000000000 * sec + nsec, and in monotonic mode, when the sample is at or
after the epoch e, it returns exactly the difference (result + e equals
the sample, so no 64-bit wraparound occurs and the result is
non-negative). -/
theorem gettime_modes_correct (sec nsec e : Nat)
    (hcur : 1000000000 * sec + nsec < U64)
    (he : e ≤ 1000000000 * sec + nsec) :
    host_gettime true sec nsec e = 1000000000 * sec + nsec ∧
      host_gettime false sec nsec e + e = 1000000000 * sec + nsec := by
  have hw : wrap (1000000000 * sec + nsec) = 1000000000 * sec + nsec :=
    wrap_eq_of_lt _ hcur
  refine ⟨by simp [host_gettime, hw], ?_⟩
  show sub64 (wrap (1000000000 * sec + nsec)) e + e = _
  rw [hw, sub64_eq_sub _ _ he hcur]
  omega

/-- Witness for gettime_modes_correct at sample (1, 5) and epoch 3. -/
theorem gettime_modes_correct_witness :
    1000000000 * 1 + 5 < U64 ∧ 3 ≤ 1000000000 * 1 + 5 ∧
      (host_gettime true 1 5 3 = 1000000000 * 1 + 5 ∧
        host_gettime false 1 5 3 + 3 = 1000000000 * 1 + 5) :=
  ⟨by decide, by decide, gettime_modes_correct 1 5 3 (by decide) (by decide)⟩

/-- C7: two monotonic-mode host_gettime reads over the same epoch e, with
the second clock sample at least the first and the first at or after the
epoch, return non-decreasing values. -/
theorem gettime_monotone (sec1 nsec1 sec2 nsec2 e : Nat)
    (h1 : 1000000000 * sec1 + nsec1 < U64)
    (h2 : 1000000000 * sec2 + nsec2 < U64)
    (he : e ≤ 1000000000 * sec1 + nsec1)
    (h12 : 1000000000 * sec1 + nsec1 ≤ 1000000000 * sec2 + nsec2) :
    host_gettime false sec1 nsec1 e ≤ host_gettime false sec2 nsec2 e := by
  have hw1 := wrap_eq_of_lt (1000000000 * sec1 + nsec1) h1
  have hw2 := wrap_eq_of_lt (1000000000 * sec2 + nsec2) h2
  show sub64 (wrap (1000000000 * sec1 + nsec1)) e ≤
    sub64 (wrap (1000000000 * sec2 + nsec2)) e
  rw [hw1, hw2, sub64_eq_sub _ _ he h1,
    sub64_eq_sub _ _ (le_trans he h12) h2]
  omega

/-- Witness for gettime_monotone at samples (0, 5) and (0, 9), epoch 2. -/
theorem gettime_monotone_witness :
    1000000000 * 0 + 5 < U64 ∧ 1000000000 * 0 + 9 < U64 ∧
      2 ≤ 1000000000 * 0 + 5 ∧
      1000000000 * 0 + 5 ≤ 1000000000 * 0 + 9 ∧
      host_gettime false 0 5 2 ≤ host_gettime false 0 9 2 :=
  ⟨by decide, by decide, by decide, by decide,
    gettime_monotone 0 5 0 9 2 (by decide) (by decide) (by decide)
      (by decide)⟩

/-- C8: host_timerirq returns the fixed signal identifier SIGALRM in
every state, returns the same value for any two states, and leaves the
state unchanged. -/
theorem timerirq_constant (s t : HostState) :
    (host_timerirq_s s).1 = SIGALRM ∧
      (host_timerirq_s s).1 = (host_timerirq_s t).1 ∧
      (host_timerirq_s s).2 = s :=
  ⟨rfl, rfl, rfl⟩

/-- C1: evaluation of both arm-timer strategies at epoch 0, current
virtual time 1000000000 ns, deadline 2000000000 ns.  The Linux
absolute-interval branch programs an expiry at virtual time 2000000000,
the requested deadline; the Darwin branch passes the deadline itself as a
relative interval without subtracting the current time, so its one-shot
expiry lands at virtual time 3000000000.  The two strategies do not honor
the same external contract. -/
theorem settimer_strategies_diverge :
    tspec_expiry_virtual 0 (host_settimer_tspec 2000000000 0) =
        2000000000 ∧
      itv_expiry_virtual 1000000000 (host_settimer_itv 2000000000) =
        3000000000 ∧
      (3000000000 : Nat) ≠ 2000000000 := by
  decide

/-- C5 counterexample: at now = 2 ^ 64 - 1 the guard addition now + 1000
wraps to 999, so the deadline 1000, although far below now, triggers a
sleep (of 1 microsecond, from the wrapped subtraction): the claim that
every deadline at most now returns without issuing a sleep fails. -/
theorem sleepuntil_wrap_cex :
    1000 ≤ U64 - 1 ∧ host_sleepuntil 1000 (U64 - 1) = some 1 := by
  decide

/-- C5 amended: whenever the guard addition now + 1000 does not overflow
uint64_t and the deadline d is a uint64_t value, host_sleepuntil issues
exactly one sleep of (d - now) / 1000 microseconds when d exceeds
now + 1000, and no sleep otherwise (in particular for every d at most
now). -/
theorem sleepuntil_guarded (d now : Nat) (hnow : now + 1000 < U64)
    (hd : d < U64) :
    host_sleepuntil d now =
      if now + 1000 < d then some ((d - now) / 1000) else none :=
  host_sleepuntil_spec d now hnow hd

/-- Witness for sleepuntil_guarded at deadline 5000, now 0. -/
theorem sleepuntil_guarded_witness :
    0 + 1000 < U64 ∧ 5000 < U64 ∧
      host_sleepuntil 5000 0 =
        if 0 + 1000 < 5000 then some ((5000 - 0) / 1000) else none :=
  ⟨by decide, by decide, sleepuntil_guarded 5000 0 (by decide) (by decide)⟩

/-- C6 counterexample: at deadline 2 ^ 63 and epoch 2 ^ 63 the uint64_t
addition nsec + g_start wraps to 0, so the programmed absolute expiry,
recombined as seconds times 10 ^ 9 plus nanoseconds, is 0 and not the
deadline plus the epoch. -/
theorem settimer_abs_overflow_cex :
    (host_settimer_tspec 9223372036854775808 9223372036854775808).it_value_sec
          * 1000000000 +
        (host_settimer_tspec 9223372036854775808
            9223372036854775808).it_value_nsec
      ≠ 9223372036854775808 + 9223372036854775808 := by
  decide

/-- C6 amended: whenever the uint64_t addition d + e does not wrap, the
Linux branch of host_settimer programs the itimerspec with value seconds
equal to the quotient of d + e by 10 ^ 9 and value nanoseconds equal to
the remainder (so the recombined expiry is exactly d + e and the
nanosecond field is below 10 ^ 9), and with a zero repeat interval, so
the timer is one-shot. -/
theorem settimer_abs_decompose (d e : Nat) (h : d + e < U64) :
    (host_settimer_tspec d e).it_value_sec = (d + e) / 1000000000 ∧
      (host_settimer_tspec d e).it_value_nsec = (d + e) % 1000000000 ∧
      (host_settimer_tspec d e).it_value_sec * 1000000000 +
        (host_settimer_tspec d e).it_value_nsec = d + e ∧
      (host_settimer_tspec d e).it_value_nsec < 1000000000 ∧
      (host_settimer_tspec d e).it_interval_sec = 0 ∧
      (host_settimer_tspec d e).it_interval_nsec = 0 := by
  have hw : wrap (d + e) = d + e := wrap_eq_of_lt _ h
  refine ⟨?_, ?_, ?_, ?_, rfl, rfl⟩ <;>
    simp only [host_settimer_tspec, hw] <;> omega

/-- Witness for settimer_abs_decompose at deadline 1500000000 and epoch
500. -/
theorem settimer_abs_decompose_witness :
    1500000000 + 500 < U64 ∧
      ((host_settimer_tspec 1500000000 500).it_value_sec =
          (1500000000 + 500) / 1000000000 ∧
        (host_settimer_tspec 1500000000 500).it_value_nsec =
          (1500000000 + 500) % 1000000000 ∧
        (host_settimer_tspec 1500000000 500).it_value_sec * 1000000000 +
          (host_settimer_tspec 1500000000 500).it_value_nsec =
            1500000000 + 500 ∧
        (host_settimer_tspec 1500000000 500).it_value_nsec < 1000000000 ∧
        (host_settimer_tspec 1500000000 500).it_interval_sec = 0 ∧
        (host_settimer_tspec 1500000000 500).it_interval_nsec = 0) :=
  ⟨by decide, settimer_abs_decompose 1500000000 500 (by decide)⟩

/-- C9 counterexample: at now = 2 ^ 64 - 500 and deadline 2 ^ 64 - 499
the guard addition wraps to 500, so the guard passes even though the
deadline is only 1 ns past now, and the issued usleep argument is
1 / 1000 = 0 microseconds, not at least 1. -/
theorem sleepuntil_zero_usleep_cex :
    host_sleepuntil (U64 - 499) (U64 - 500) = some 0 := by
  decide

/-- C9 amended: whenever the guard addition now + 1000 does not overflow
uint64_t, any issued sleep implies the deadline strictly exceeds
now + 1000, so the subtraction d - now does not wrap and the microsecond
argument (d - now) / 1000 is at least 1. -/
theorem sleepuntil_positive_usleep (d now u : Nat)
    (hnow : now + 1000 < U64) (hd : d < U64)
    (hs : host_sleepuntil d now = some u) :
    now + 1000 < d ∧ u = (d - now) / 1000 ∧ 1 ≤ u := by
  rw [host_sleepuntil_spec d now hnow hd] at hs
  by_cases hc : now + 1000 < d
  · rw [if_pos hc] at hs
    have hu := Option.some.inj hs
    refine ⟨hc, hu.symm, ?_⟩
    omega
  · rw [if_neg hc] at hs
    exact absurd hs (by simp)

/-- Witness for sleepuntil_positive_usleep at deadline 5000, now 0,
issued argument 5. -/
theorem sleepuntil_positive_usleep_witness :
    (0 + 1000 < U64 ∧ 5000 < U64 ∧ host_sleepuntil 5000 0 = some 5) ∧
      (0 + 1000 < 5000 ∧ 5 = (5000 - 0) / 1000 ∧ 1 ≤ 5) :=
  ⟨⟨by decide, by decide, by decide⟩,
    sleepuntil_positive_usleep 5000 0 5 (by decide) (by decide)
      (by decide)⟩

/-- C10: host_gettime, host_sleep, host_sleepuntil, both branches of
host_settimer and host_timerirq leave the state (g_start and g_timer)
unchanged, while both branches of host_inittimer set g_start to the
sampled monotonic time: the epoch is written only by initialization. -/
theorem ops_preserve_state (rtc : Bool) (sec nsec d : Nat) (r r2 : Int)
    (u : Nat) (s : HostState) :
    (host_gettime_s rtc sec nsec s).2 = s ∧
      (host_sleep_s d s).2 = s ∧
      (host_sleepuntil_s d sec nsec s).2 = s ∧
      (host_settimer_s d r s).2 = s ∧
      (host_settimer_darwin_s d r s).2 = s ∧
      (host_timerirq_s s).2 = s ∧
      (host_inittimer_linux r sec nsec r2 u s).2.g_start =
        wrap (1000000000 * sec + nsec) ∧
      (host_inittimer_linux r sec nsec r2 u s).2.g_timer = u ∧
      (host_inittimer_darwin r sec nsec s).2.g_start =
        wrap (1000000000 * sec + nsec) ∧
      (host_inittimer_darwin r sec nsec s).2.g_timer = s.g_timer :=
  ⟨rfl, rfl, rfl, rfl, rfl, rfl, rfl, rfl, rfl, rfl⟩

end SimHosttime
